import Mathlib

/-!
Verification of `ProxmoxHelpers.py` (svenfulen/pvepie).

The module is a thin wrapper over a cluster-management API.  We embed it
shallowly: Python strings handled character-by-character become `List Char`
(ASCII lowering via `Char.toLower`, matching the regex character class
`[^a-z0-9-]` which only passes ASCII anyway), remote state becomes explicit
environment records, every remote invocation is logged in a trace of
`ApiCall` values, and exceptions become `Except` results or boolean
success flags mirroring the `try`/`except` blocks of the source.
-/

set_option maxRecDepth 10000

/-! ### The DNS-name sanitizer inside `set_name` (lines 100-117) -/

/-- The regex character class `[a-z0-9-]` from `re.sub(r"[^a-z0-9-]", "-", name)`. -/
def isAllowed (c : Char) : Bool :=
  ('a' ≤ c && c ≤ 'z') || ('0' ≤ c && c ≤ '9') || c == '-'

/-- `name.lower()` (ASCII; any character the Python call would lower beyond
ASCII is outside `[a-z0-9-]` and is replaced by the next stage anyway). -/
def pyLowerStr (l : List Char) : List Char :=
  l.map Char.toLower

/-- `re.sub(r"[^a-z0-9-]", "-", name)`. -/
def replaceInvalid (l : List Char) : List Char :=
  l.map (fun c => if isAllowed c then c else '-')

/-- `name.strip("-")`: drop hyphens from both ends. -/
def pyStripHyphen (l : List Char) : List Char :=
  ((l.dropWhile (fun c => c == '-')).reverse.dropWhile (fun c => c == '-')).reverse

/-- Python `str.split(".")`: `"".split(".") == [""]`, separators are not kept. -/
def pySplitDot : List Char → List (List Char)
  | [] => [[]]
  | c :: cs =>
    if c == '.' then [] :: pySplitDot cs
    else
      match pySplitDot cs with
      | [] => [[c]]
      | h :: t => (c :: h) :: t

/-- Python `".".join(labels)`. -/
def pyJoinDot : List (List Char) → List Char
  | [] => []
  | [l] => l
  | l :: ls => l ++ '.' :: pyJoinDot ls

/-- `".".join(label[:63] for label in name.split("."))` (line 116). -/
def capLabels (l : List Char) : List Char :=
  pyJoinDot ((pySplitDot l).map (fun lab => lab.take 63))

/-- `sanitize_dns_name` (lines 100-117): lowercase, replace invalid
characters with hyphens, strip leading/trailing hyphens, truncate to 253,
then cap each dot-separated label at 63 characters. -/
def sanitize_dns_name (name : List Char) : List Char :=
  capLabels ((pyStripHyphen (replaceInvalid (pyLowerStr name))).take 253)

/-! ### Remote calls and environments -/

/-- One remote invocation on the underlying API client. -/
inductive ApiCall where
  | nodesGet
  | nodeStatusGet (node : String)
  | clusterResourcesGet
  | configPutName (node : Option String) (vmid : Nat) (name : List Char)
  | configPutCpu (node : Option String) (vmid : Nat) (sockets cores : Int)
  | configPutMemory (node : Option String) (vmid : Nat) (memory : Int)
  | poolsPut (pool : String) (vmid : Nat)
  | migratePost (node : Option String) (vmid : Nat) (target : String) (online : Nat)
  | haResourcesGet
  | haResourcesCreate (sid : String) (group : String) (state : String)
  | haResourcePut (sid : String) (state : String)
  | haResourceDelete (sid : String)
  deriving DecidableEq

/-- A `config.put` call on the qemu configuration endpoint. -/
def isConfigPut : ApiCall → Bool
  | ApiCall.configPutName _ _ _ => true
  | ApiCall.configPutCpu _ _ _ _ => true
  | ApiCall.configPutMemory _ _ _ => true
  | _ => false

/-- Kinds of Python exception the source distinguishes (`ConnectionError`
versus every other `Exception`). -/
inductive PyExn where
  | connectionError
  | otherError
  deriving DecidableEq

/-- Remote behaviour seen by `is_node_alive`: the result of
`connection.nodes.get()` (a list of node names) and of
`connection.nodes(n).status.get()` for each node, either of which may raise. -/
structure NodeEnv where
  nodesGet : Except PyExn (List String)
  nodeStatus : String → Except PyExn Unit

/-- One entry of `cluster.resources.get(type='vm')`; `dict.get` returns
`None` for a missing key, hence every field is optional. -/
structure VMResource where
  vmid : Option Nat
  node : Option String
  pool : Option String
  name : Option String
  tags : Option String
  cpu : Option Int
  disk : Option Int
  maxcpu : Option Int
  maxdisk : Option Int
  maxmem : Option Int
  mem : Option Int
  status : Option String
  storage : Option String
  uptime : Option Int
  deriving DecidableEq

/-- One entry of `cluster.ha.resources.get()`.  `sid` and `status` are read
with keyed access `resource['sid']` / `resource['status']`, `group` and
`state` with `resource.get(..., None)`. -/
structure HARes where
  sid : String
  group : Option String
  state : Option String
  status : String
  deriving DecidableEq

/-- Remote cluster state for `ProxmoxVM` methods, plus flags telling
whether the write endpoints raise (`false` = the call raises). -/
structure Cluster where
  resources : List VMResource
  haResources : List HARes
  configPutOk : Bool
  poolsPutOk : Bool
  deriving DecidableEq

/-- The cached state of a `ProxmoxVM` instance (its `_vmid`, `_node`, ...
attributes; the API client itself is passed separately as a `Cluster`). -/
structure ProxmoxVM where
  vmid : Nat
  node : Option String
  pool : Option String
  name : Option String
  tags : Option String
  cpu : Option Int
  disk : Option Int
  maxcpu : Option Int
  maxdisk : Option Int
  maxmem : Option Int
  mem : Option Int
  status : Option String
  storage : Option String
  uptime : Option Int
  deriving DecidableEq

/-! ### The operations (each returns its updated state and/or call trace) -/

/-- `is_node_alive` (lines 5-33).  A raise of `nodes.get()` is caught by the
outer handler (`False`); a raise of the status probe returns `False` whether
it is a `ConnectionError` (inner handler) or anything else (outer handler). -/
def is_node_alive (env : NodeEnv) (node : String) : Bool :=
  match env.nodesGet with
  | Except.error _ => false
  | Except.ok nodes =>
    match nodes.find? (fun n => n == node) with
    | none => false
    | some n =>
      match env.nodeStatus n with
      | Except.ok _ => true
      | Except.error _ => false

/-- `ProxmoxVM.__init__` (lines 37-85): scan `cluster.resources.get(type='vm')`
for the first entry whose `vmid` matches; populate every cached field from it,
or raise `ValueError` when no entry matches. -/
def ProxmoxVM.init (resources : List VMResource) (vm_id : Nat) : Except String ProxmoxVM :=
  match resources.find? (fun r => r.vmid == some vm_id) with
  | some r =>
    Except.ok
      { vmid := vm_id, node := r.node, pool := r.pool, name := r.name, tags := r.tags,
        cpu := r.cpu, disk := r.disk, maxcpu := r.maxcpu, maxdisk := r.maxdisk,
        maxmem := r.maxmem, mem := r.mem, status := r.status, storage := r.storage,
        uptime := r.uptime }
  | none =>
    Except.error ("VM with ID " ++ toString vm_id ++ " not found in the Proxmox cluster.")

/-- `get_node` (lines 125-138): re-query the cluster resource listing, update
the cached `_node` on a match, return `None` when the VM is absent. -/
def get_node (env : Cluster) (vm : ProxmoxVM) : ProxmoxVM × Option String × List ApiCall :=
  match env.resources.find? (fun r => r.vmid == some vm.vmid) with
  | some r => ({ vm with node := r.node }, r.node, [ApiCall.clusterResourcesGet])
  | none => (vm, none, [ApiCall.clusterResourcesGet])

/-- `set_name` (lines 93-123): sanitize, then write the new name through
`nodes(self._node).qemu(self._vmid).config.put(name=...)` using the cached
node.  The cache itself is not touched. -/
def set_name (vm : ProxmoxVM) (new_name : List Char) : List ApiCall :=
  [ApiCall.configPutName vm.node vm.vmid (sanitize_dns_name new_name)]

/-- `set_pool` (lines 154-167): one `pools(...).put`; on success cache the
pool name and return `True`, on a raise return `False`. -/
def set_pool (env : Cluster) (vm : ProxmoxVM) (resource_pool_name : String) :
    ProxmoxVM × Bool × List ApiCall :=
  if env.poolsPutOk then
    ({ vm with pool := some resource_pool_name }, true,
      [ApiCall.poolsPut resource_pool_name vm.vmid])
  else
    (vm, false, [ApiCall.poolsPut resource_pool_name vm.vmid])

/-- `set_cpu` (lines 256-271): `config.put(sockets=..., cores=...)` on the
node returned by `get_node`; on success cache `_maxcpu = sockets * cores`. -/
def set_cpu (env : Cluster) (vm : ProxmoxVM) (cores : Int) (sockets : Int) :
    ProxmoxVM × Bool × List ApiCall :=
  let g := get_node env vm
  let trace := g.2.2 ++ [ApiCall.configPutCpu g.2.1 vm.vmid sockets cores]
  if env.configPutOk then
    ({ g.1 with maxcpu := some (sockets * cores) }, true, trace)
  else
    (g.1, false, trace)

/-- `set_memory` (lines 274-289): convert GB to MB, `config.put(memory=...)`
on the node returned by `get_node`; on success cache `_maxmem = memory_mb`. -/
def set_memory (env : Cluster) (vm : ProxmoxVM) (memory_gb : Int) :
    ProxmoxVM × Bool × List ApiCall :=
  let memory_mb := memory_gb * 1024
  let g := get_node env vm
  let trace := g.2.2 ++ [ApiCall.configPutMemory g.2.1 vm.vmid memory_mb]
  if env.configPutOk then
    ({ g.1 with maxmem := some memory_mb }, true, trace)
  else
    (g.1, false, trace)

/-- The HA service id `f'vm:{self._vmid}'`. -/
def haSid (vmid : Nat) : String :=
  "vm:" ++ toString vmid

/-- `get_ha_group` (lines 375-380): first matching `sid` wins; the value is
`resource.get('group', None)`, so a match without a group also yields `None`. -/
def get_ha_group (env : Cluster) (vm : ProxmoxVM) : Option String × List ApiCall :=
  match env.haResources.find? (fun r => r.sid == haSid vm.vmid) with
  | some r => (r.group, [ApiCall.haResourcesGet])
  | none => (none, [ApiCall.haResourcesGet])

/-- `remove_from_ha_group` (lines 402-411): return early when `get_ha_group`
is `None`; otherwise disable the registration, then delete it. -/
def remove_from_ha_group (env : Cluster) (vm : ProxmoxVM) : List ApiCall :=
  let g := get_ha_group env vm
  match g.1 with
  | none => g.2
  | some _ =>
    g.2 ++ [ApiCall.haResourcePut (haSid vm.vmid) "disabled",
            ApiCall.haResourceDelete (haSid vm.vmid)]

/-- `add_to_ha_group_started` (lines 391-399): for every listed resource
whose `sid` matches and whose `status` is `'error'`, call
`remove_from_ha_group`; then create the new registration with
`state='started'`. -/
def add_to_ha_group_started (env : Cluster) (vm : ProxmoxVM) (group : String) :
    List ApiCall :=
  let removals :=
    (env.haResources.map (fun r =>
      if r.sid == haSid vm.vmid then
        if r.status == "error" then remove_from_ha_group env vm else []
      else [])).flatten
  ApiCall.haResourcesGet :: removals ++
    [ApiCall.haResourcesCreate (haSid vm.vmid) group "started"]

/-- `migrate_vm` (lines 414-420): return when `get_node()` equals the target;
otherwise call `get_node()` again and post an online migration (a
`ResourceException` raised there is only printed). -/
def migrate_vm (env : Cluster) (vm : ProxmoxVM) (node : String) :
    ProxmoxVM × List ApiCall :=
  let g1 := get_node env vm
  if g1.2.1 == some node then
    (g1.1, g1.2.2)
  else
    let g2 := get_node env g1.1
    (g2.1, g1.2.2 ++ g2.2.2 ++ [ApiCall.migratePost g2.2.1 vm.vmid node 1])

/-! ### Concrete instances used by witnesses and counterexamples -/

/-- A 300-character input for the rename sanitizer. -/
def s300 : List Char := List.replicate 300 'a'

/-- A cluster resource entry for VM 100 on node `n1`. -/
def resDemo : VMResource :=
  { vmid := some 100, node := some "n1", pool := some "p1", name := some "vm-a",
    tags := none, cpu := some 1, disk := some 10, maxcpu := some 4, maxdisk := some 100,
    maxmem := some 2048, mem := some 512, status := some "running", storage := none,
    uptime := some 5 }

/-- The handle for VM 100 as constructed from `resDemo`. -/
def vmDemo : ProxmoxVM :=
  { vmid := 100, node := some "n1", pool := some "p1", name := some "vm-a",
    tags := none, cpu := some 1, disk := some 10, maxcpu := some 4, maxdisk := some 100,
    maxmem := some 2048, mem := some 512, status := some "running", storage := none,
    uptime := some 5 }

/-- Healthy cluster: VM 100 listed, no HA registrations, all writes succeed. -/
def envDemo : Cluster :=
  { resources := [resDemo], haResources := [], configPutOk := true, poolsPutOk := true }

/-- Cluster whose write endpoints raise. -/
def envFail : Cluster :=
  { resources := [resDemo], haResources := [], configPutOk := false, poolsPutOk := false }

/-- HA registration for VM 100 in error state, with a group assigned. -/
def haErrGrouped : HARes :=
  { sid := "vm:100", group := some "g0", state := some "started", status := "error" }

/-- Cluster where VM 100 has an errored, group-carrying HA registration. -/
def envHAerrG : Cluster :=
  { resources := [resDemo], haResources := [haErrGrouped], configPutOk := true,
    poolsPutOk := true }

/-- HA registration for VM 100 in error state but with no group field. -/
def haErrNoGroup : HARes :=
  { sid := "vm:100", group := none, state := none, status := "error" }

/-- Cluster where VM 100 has an errored, group-less HA registration. -/
def envHAerrN : Cluster :=
  { resources := [resDemo], haResources := [haErrNoGroup], configPutOk := true,
    poolsPutOk := true }

/-- A healthy HA registration for VM 101 that carries no group field. -/
def haRegNoGroup : HARes :=
  { sid := "vm:101", group := none, state := some "started", status := "started" }

/-- The handle for VM 101. -/
def vm101 : ProxmoxVM :=
  { vmid := 101, node := some "n1", pool := none, name := none, tags := none, cpu := none,
    disk := none, maxcpu := none, maxdisk := none, maxmem := none, mem := none,
    status := none, storage := none, uptime := none }

/-- Cluster where VM 101 is HA-registered without a group. -/
def envHAnoGroup : Cluster :=
  { resources := [], haResources := [haRegNoGroup], configPutOk := true, poolsPutOk := true }

/-! ### Helper lemmas -/

/-- The replacement stage never leaves a dot in the name: a dot fails the
character class and is itself replaced by a hyphen. -/
theorem not_dot_mem_replaceInvalid (l : List Char) : '.' ∉ replaceInvalid l := by
  intro h
  rcases List.mem_map.mp h with ⟨c, _, hc⟩
  by_cases hA : isAllowed c = true
  · rw [if_pos hA] at hc
    subst hc
    exact absurd hA (by decide)
  · rw [if_neg hA] at hc
    exact absurd hc (by decide)

/-- No dot survives through replacement, stripping and the 253-truncation. -/
theorem not_dot_pre (name : List Char) :
    '.' ∉ (pyStripHyphen (replaceInvalid (pyLowerStr name))).take 253 := by
  intro h
  have h1 := List.take_subset _ _ h
  unfold pyStripHyphen at h1
  rw [List.mem_reverse] at h1
  have h2 := List.dropWhile_subset _ h1
  rw [List.mem_reverse] at h2
  have h3 := List.dropWhile_subset _ h2
  exact not_dot_mem_replaceInvalid _ h3

/-- Python `split` always returns at least one piece. -/
theorem pySplitDot_ne_nil : ∀ l : List Char, pySplitDot l ≠ []
  | [] => by simp [pySplitDot]
  | c :: cs => by
    unfold pySplitDot
    by_cases h : (c == '.') = true
    · simp [h]
    · rw [if_neg h]
      cases hs : pySplitDot cs with
      | nil => simp
      | cons a t => simp

/-- Splitting a dot-free name yields the name as its single label. -/
theorem pySplitDot_eq_single : ∀ (l : List Char), '.' ∉ l → pySplitDot l = [l]
  | [], _ => rfl
  | c :: cs, h => by
    have hcne : c ≠ '.' := fun e => h (by rw [e]; exact List.mem_cons_self _ _)
    have ih := pySplitDot_eq_single cs (fun m => h (List.mem_cons_of_mem c m))
    simp [pySplitDot, hcne, ih]

/-- Splitting past a dot that follows a dot-free chunk peels off that chunk. -/
theorem pySplitDot_append_dot : ∀ (x r : List Char), '.' ∉ x →
    pySplitDot (x ++ '.' :: r) = x :: pySplitDot r
  | [], r, _ => by simp [pySplitDot]
  | a :: as, r, h => by
    have hane : a ≠ '.' := fun e => h (by rw [e]; exact List.mem_cons_self _ _)
    have ih := pySplitDot_append_dot as r (fun m => h (List.mem_cons_of_mem a m))
    simp [pySplitDot, hane, ih]

/-- Every label produced by the split is dot-free. -/
theorem not_dot_of_mem_pySplitDot : ∀ (l : List Char), ∀ lab ∈ pySplitDot l, '.' ∉ lab
  | [] => by
    intro lab m
    simp [pySplitDot] at m
    subst m
    simp
  | c :: cs => by
    intro lab m
    by_cases hc : c = '.'
    · subst hc
      rw [show pySplitDot ('.' :: cs) = [] :: pySplitDot cs from by simp [pySplitDot]] at m
      rcases List.mem_cons.mp m with h1 | h2
      · subst h1; simp
      · exact not_dot_of_mem_pySplitDot cs lab h2
    · cases hs : pySplitDot cs with
      | nil => exact absurd hs (pySplitDot_ne_nil cs)
      | cons hh tt =>
        rw [show pySplitDot (c :: cs) = (c :: hh) :: tt from by simp [pySplitDot, hc, hs]] at m
        rcases List.mem_cons.mp m with h1 | h2
        · subst h1
          intro hdot
          rcases List.mem_cons.mp hdot with e | e2
          · exact hc e.symm
          · exact not_dot_of_mem_pySplitDot cs hh (by rw [hs]; exact List.mem_cons_self hh tt) e2
        · exact not_dot_of_mem_pySplitDot cs lab (by rw [hs]; exact List.mem_cons_of_mem hh h2)

/-- Joining dot-free labels and splitting again recovers the labels. -/
theorem pySplitDot_pyJoinDot : ∀ (ls : List (List Char)), ls ≠ [] →
    (∀ lab ∈ ls, '.' ∉ lab) → pySplitDot (pyJoinDot ls) = ls
  | [], h, _ => absurd rfl h
  | [x], _, hd => by
    rw [show pyJoinDot [x] = x from rfl]
    rw [pySplitDot_eq_single x (hd x (List.mem_cons_self _ _))]
  | x :: y :: t, _, hd => by
    have ih := pySplitDot_pyJoinDot (y :: t) (by simp)
      (fun lab m => hd lab (List.mem_cons_of_mem x m))
    have hx : '.' ∉ x := hd x (List.mem_cons_self _ _)
    rw [show pyJoinDot (x :: y :: t) = x ++ '.' :: pyJoinDot (y :: t) from rfl]
    rw [pySplitDot_append_dot x _ hx, ih]

/-- The label-capping stage caps every dot-separated label independently. -/
theorem pySplitDot_capLabels (l : List Char) :
    pySplitDot (capLabels l) = (pySplitDot l).map (fun lab => lab.take 63) := by
  unfold capLabels
  apply pySplitDot_pyJoinDot
  · intro h
    rw [List.map_eq_nil_iff] at h
    exact pySplitDot_ne_nil l h
  · intro lab m
    rcases List.mem_map.mp m with ⟨lab0, m0, hlab⟩
    subst hlab
    intro hdot
    exact not_dot_of_mem_pySplitDot l lab0 m0 (List.take_subset _ _ hdot)

/-- On a dot-free name the label cap is a plain 63-character truncation. -/
theorem capLabels_no_dot (l : List Char) (h : '.' ∉ l) : capLabels l = l.take 63 := by
  unfold capLabels
  rw [pySplitDot_eq_single l h]
  rfl

/-- `get_node` performs exactly one remote call, the resource-listing read. -/
theorem get_node_trace (env : Cluster) (vm : ProxmoxVM) :
    (get_node env vm).2.2 = [ApiCall.clusterResourcesGet] := by
  unfold get_node
  cases env.resources.find? (fun r => r.vmid == some vm.vmid) <;> rfl

/-- `get_node` only rewrites the cached node, not the cached CPU maximum. -/
theorem get_node_maxcpu (env : Cluster) (vm : ProxmoxVM) :
    (get_node env vm).1.maxcpu = vm.maxcpu := by
  unfold get_node
  cases env.resources.find? (fun r => r.vmid == some vm.vmid) <;> rfl

/-- `get_node` only rewrites the cached node, not the cached memory maximum. -/
theorem get_node_maxmem (env : Cluster) (vm : ProxmoxVM) :
    (get_node env vm).1.maxmem = vm.maxmem := by
  unfold get_node
  cases env.resources.find? (fun r => r.vmid == some vm.vmid) <;> rfl

/-- `get_ha_group` performs exactly one remote call, the HA listing read. -/
theorem get_ha_group_trace (env : Cluster) (vm : ProxmoxVM) :
    (get_ha_group env vm).2 = [ApiCall.haResourcesGet] := by
  unfold get_ha_group
  cases env.haResources.find? (fun r => r.sid == haSid vm.vmid) <;> rfl

/-- Flattening a map that is pointwise empty gives the empty list. -/
theorem flatten_map_eq_nil {α β : Type} (f : α → List β) :
    ∀ l : List α, (∀ x ∈ l, f x = []) → (l.map f).flatten = []
  | [], _ => rfl
  | a :: t, h => by
    rw [List.map_cons, List.flatten_cons, h a (List.mem_cons_self a t), List.nil_append]
    exact flatten_map_eq_nil f t (fun x hx => h x (List.mem_cons_of_mem a hx))

/-! ### Claim theorems -/

/-- Claim C1 (amended): for every 300-character input to `set_name`, the
sanitized name written to the remote configuration is the input after
lowercasing, hyphen-replacement and hyphen-stripping truncated to 63
characters, not 253: replacement turns every dot into a hyphen, so the whole
name is a single label and the 63-character label cap applies to all of it;
in particular the written name is never longer than 63 characters. -/
theorem sanitize_len300_caps_at_63 (vm : ProxmoxVM) (name : List Char)
    (_h : name.length = 300) :
    set_name vm name =
      [ApiCall.configPutName vm.node vm.vmid
        ((pyStripHyphen (replaceInvalid (pyLowerStr name))).take 63)] ∧
    (sanitize_dns_name name).length ≤ 63 := by
  have key : sanitize_dns_name name
      = (pyStripHyphen (replaceInvalid (pyLowerStr name))).take 63 := by
    unfold sanitize_dns_name
    rw [capLabels_no_dot _ (not_dot_pre name), List.take_take]
    norm_num
  constructor
  · unfold set_name
    rw [key]
  · rw [key]
    exact List.length_take_le _ _

/-- Witness for C1: the concrete 300-character input `aaa...a`. -/
theorem sanitize_len300_caps_at_63_witness :
    s300.length = 300 ∧
    set_name vmDemo s300 =
      [ApiCall.configPutName vmDemo.node vmDemo.vmid
        ((pyStripHyphen (replaceInvalid (pyLowerStr s300))).take 63)] ∧
    (sanitize_dns_name s300).length ≤ 63 :=
  ⟨by simp [s300],
   (sanitize_len300_caps_at_63 vmDemo s300 (by simp [s300])).1,
   (sanitize_len300_caps_at_63 vmDemo s300 (by simp [s300])).2⟩

/-- Counterexample to C1 as stated: on the 300-character input `aaa...a`, the
sanitized name is not the 253-character truncation of the processed input; it
has length 63. -/
theorem sanitize_len300_not_253 :
    s300.length = 300 ∧
    sanitize_dns_name s300 ≠ (pyStripHyphen (replaceInvalid (pyLowerStr s300))).take 253 ∧
    (sanitize_dns_name s300).length = 63 := by
  refine ⟨by decide, by decide, by decide⟩

/-- Claim C2: for every input passed to the rename operation, every
dot-separated label of the sanitized result is at most 63 characters long,
and the label-capping stage truncates each label within that label only:
the labels of the capped name are exactly the labels of the pre-cap name
each truncated to its own first 63 characters, so a label never influences
another label. -/
theorem sanitize_caps_each_label (name : List Char) :
    pySplitDot (sanitize_dns_name name) =
      (pySplitDot ((pyStripHyphen (replaceInvalid (pyLowerStr name))).take 253)).map
        (fun lab => lab.take 63) ∧
    (pySplitDot (sanitize_dns_name name)).all (fun lab => decide (lab.length ≤ 63)) = true ∧
    ∀ l : List Char, pySplitDot (capLabels l) = (pySplitDot l).map (fun lab => lab.take 63) := by
  refine ⟨pySplitDot_capLabels _, ?_, fun l => pySplitDot_capLabels l⟩
  rw [List.all_eq_true]
  intro lab m
  unfold sanitize_dns_name at m
  rw [pySplitDot_capLabels] at m
  rcases List.mem_map.mp m with ⟨lab0, _, hlab⟩
  subst hlab
  simp only [decide_eq_true_eq]
  exact List.length_take_le _ _

/-- Claim C3 (amended): migrating to the node the VM currently resides on
issues no migration request and returns normally; the only remote call is
the read of the cluster resource listing that `get_node` performs to decide
where the VM currently lives. -/
theorem migrate_vm_same_node_only_reads (env : Cluster) (vm : ProxmoxVM) (node : String)
    (h : (get_node env vm).2.1 = some node) :
    (migrate_vm env vm node).2 = [ApiCall.clusterResourcesGet] ∧
    (migrate_vm env vm node).1 = (get_node env vm).1 := by
  have hb : ((get_node env vm).2.1 == some node) = true := beq_iff_eq.mpr h
  constructor <;> simp [migrate_vm, hb, get_node_trace]

/-- Witness for C3: VM 100 sits on `n1`; migrating to `n1` only reads. -/
theorem migrate_vm_same_node_only_reads_witness :
    (migrate_vm envDemo vmDemo "n1").2 = [ApiCall.clusterResourcesGet] ∧
    (migrate_vm envDemo vmDemo "n1").1 = (get_node envDemo vmDemo).1 :=
  migrate_vm_same_node_only_reads envDemo vmDemo "n1" (by decide)

/-- Counterexample to C3 as stated: migrating VM 100 to its current node `n1`
does perform a remote API call, namely the cluster resource listing read. -/
theorem migrate_vm_same_node_still_calls_api :
    (get_node envDemo vmDemo).2.1 = some "n1" ∧
    (migrate_vm envDemo vmDemo "n1").2 ≠ [] ∧
    (migrate_vm envDemo vmDemo "n1").2 = [ApiCall.clusterResourcesGet] := by
  refine ⟨by decide, by decide, by decide⟩

/-- Claim C4: `is_node_alive` returns `true` exactly when the node listing
succeeds, contains the queried node, and the direct status probe on that
node succeeds; every failure (listing raises, node absent, probe raises a
connection error or anything else) yields `false`.  The embedding is a total
boolean function, so no exception ever reaches the caller. -/
theorem is_node_alive_iff (env : NodeEnv) (node : String) :
    is_node_alive env node = true ↔
      ∃ ns, env.nodesGet = Except.ok ns ∧ node ∈ ns ∧
        env.nodeStatus node = Except.ok () := by
  unfold is_node_alive
  cases hg : env.nodesGet with
  | error e => simp
  | ok ns =>
    dsimp only
    cases hf : ns.find? (fun n => n == node) with
    | none =>
      dsimp only
      constructor
      · intro h
        exact Bool.noConfusion h
      · rintro ⟨ns2, hns, hmem, -⟩
        injection hns with hns2
        subst hns2
        have := List.find?_eq_none.mp hf node hmem
        simp at this
    | some a =>
      have hpa : (a == node) = true := by
        have h2 := List.find?_some hf
        exact h2
      have ha : a = node := eq_of_beq hpa
      subst ha
      dsimp only
      cases hst : env.nodeStatus a with
      | ok u =>
        constructor
        · intro _
          exact ⟨ns, rfl, List.mem_of_find?_eq_some hf, rfl⟩
        · intro _
          rfl
      | error e =>
        constructor
        · intro h
          exact Bool.noConfusion h
        · rintro ⟨ns2, hns, -, hst2⟩
          exact Except.noConfusion hst2

/-- Claim C5: when the cluster resource listing contains a VM-type entry
matching the requested identifier, construction returns a handle whose every
cached field (node, pool, name, tags, cpu, disk, maxcpu, maxdisk, maxmem,
mem, status, storage, uptime) comes exactly from the first matching entry. -/
theorem init_found (resources : List VMResource) (vm_id : Nat)
    (pre post : List VMResource) (r : VMResource)
    (hres : resources = pre ++ r :: post)
    (hpre : ∀ x ∈ pre, x.vmid ≠ some vm_id)
    (hr : r.vmid = some vm_id) :
    ProxmoxVM.init resources vm_id =
      Except.ok
        { vmid := vm_id, node := r.node, pool := r.pool, name := r.name, tags := r.tags,
          cpu := r.cpu, disk := r.disk, maxcpu := r.maxcpu, maxdisk := r.maxdisk,
          maxmem := r.maxmem, mem := r.mem, status := r.status, storage := r.storage,
          uptime := r.uptime } := by
  subst hres
  have h1 : pre.find? (fun x => x.vmid == some vm_id) = none :=
    List.find?_eq_none.mpr (fun x hx => by
      simp only [beq_iff_eq]
      exact hpre x hx)
  have hfind : (pre ++ r :: post).find? (fun x => x.vmid == some vm_id) = some r := by
    rw [List.find?_append, h1, Option.none_or]
    exact List.find?_cons_of_pos _ (beq_iff_eq.mpr hr)
  unfold ProxmoxVM.init
  rw [hfind]

/-- Witness for C5: constructing VM 100 from the singleton listing. -/
theorem init_found_witness :
    ProxmoxVM.init [resDemo] 100 =
      Except.ok
        { vmid := 100, node := resDemo.node, pool := resDemo.pool, name := resDemo.name,
          tags := resDemo.tags, cpu := resDemo.cpu, disk := resDemo.disk,
          maxcpu := resDemo.maxcpu, maxdisk := resDemo.maxdisk, maxmem := resDemo.maxmem,
          mem := resDemo.mem, status := resDemo.status, storage := resDemo.storage,
          uptime := resDemo.uptime } :=
  init_found [resDemo] 100 [] [] resDemo rfl (by simp) rfl

/-- Claim C6: when no entry of the cluster resource listing matches the
requested identifier, construction fails with the not-found error instead of
returning a handle. -/
theorem init_not_found (resources : List VMResource) (vm_id : Nat)
    (h : ∀ x ∈ resources, x.vmid ≠ some vm_id) :
    ProxmoxVM.init resources vm_id =
      Except.error ("VM with ID " ++ toString vm_id ++ " not found in the Proxmox cluster.") := by
  unfold ProxmoxVM.init
  rw [List.find?_eq_none.mpr (fun x hx => by
    simp only [beq_iff_eq]
    exact h x hx)]

/-- Witness for C6: requesting VM 5 from a listing holding only VM 100. -/
theorem init_not_found_witness :
    ProxmoxVM.init [resDemo] 5 =
      Except.error ("VM with ID " ++ toString 5 ++ " not found in the Proxmox cluster.") :=
  init_not_found [resDemo] 5 (by decide)

/-- Claim C7: `set_memory` with `g` gigabytes issues exactly one underlying
configuration write, carrying the value `g * 1024` megabytes, and when the
call reports success the cached memory maximum becomes `g * 1024`. -/
theorem set_memory_writes_gb_times_1024 (env : Cluster) (vm : ProxmoxVM) (g : Int) :
    (set_memory env vm g).2.2.filter isConfigPut =
      [ApiCall.configPutMemory (get_node env vm).2.1 vm.vmid (g * 1024)] ∧
    ((set_memory env vm g).2.1 = true →
      (set_memory env vm g).1.maxmem = some (g * 1024)) := by
  cases hc : env.configPutOk <;>
    simp [set_memory, hc, get_node_trace, isConfigPut, List.filter]

/-- Witness for C7: `set_memory(4)` writes 4096 MB and caches 4096. -/
theorem set_memory_writes_gb_times_1024_witness :
    (set_memory envDemo vmDemo 4).2.2.filter isConfigPut =
      [ApiCall.configPutMemory (get_node envDemo vmDemo).2.1 vmDemo.vmid (4 * 1024)] ∧
    (set_memory envDemo vmDemo 4).1.maxmem = some 4096 := by
  refine ⟨(set_memory_writes_gb_times_1024 envDemo vmDemo 4).1, ?_⟩
  have h := (set_memory_writes_gb_times_1024 envDemo vmDemo 4).2 (by decide)
  simpa using h

/-- Claim C8 (amended): when the VM's one matching HA registration has
status `error` and carries a group, `add_to_ha_group_started` deregisters it
first — the full trace is the listing read, the removal's listing read, the
disable write, the delete, and only then the creation with state `started`;
the removal calls strictly precede the creation.  (When the errored
registration carries no group, the removal degenerates to a read and nothing
is deleted — see the counterexample to the claim as stated.) -/
theorem add_to_ha_error_removes_before_create (env : Cluster) (vm : ProxmoxVM)
    (group : String) (pre post : List HARes) (r : HARes) (g0 : String)
    (hha : env.haResources = pre ++ r :: post)
    (hpre : ∀ x ∈ pre, x.sid ≠ haSid vm.vmid)
    (hpost : ∀ x ∈ post, x.sid ≠ haSid vm.vmid)
    (hsid : r.sid = haSid vm.vmid)
    (hstatus : r.status = "error")
    (hgroup : r.group = some g0) :
    add_to_ha_group_started env vm group =
      [ApiCall.haResourcesGet, ApiCall.haResourcesGet,
       ApiCall.haResourcePut (haSid vm.vmid) "disabled",
       ApiCall.haResourceDelete (haSid vm.vmid),
       ApiCall.haResourcesCreate (haSid vm.vmid) group "started"] := by
  have hfind : env.haResources.find? (fun x => x.sid == haSid vm.vmid) = some r := by
    rw [hha, List.find?_append,
        List.find?_eq_none.mpr (fun x hx => by
          simp only [beq_iff_eq]
          exact hpre x hx),
        Option.none_or]
    exact List.find?_cons_of_pos _ (beq_iff_eq.mpr hsid)
  have hget : get_ha_group env vm = (some g0, [ApiCall.haResourcesGet]) := by
    unfold get_ha_group
    rw [hfind]
    dsimp only
    rw [hgroup]
  have hrem : remove_from_ha_group env vm =
      [ApiCall.haResourcesGet, ApiCall.haResourcePut (haSid vm.vmid) "disabled",
       ApiCall.haResourceDelete (haSid vm.vmid)] := by
    unfold remove_from_ha_group
    rw [hget]
    rfl
  unfold add_to_ha_group_started
  rw [hha, List.map_append, List.map_cons, List.flatten_append, List.flatten_cons]
  rw [flatten_map_eq_nil _ pre (fun x hx => by
    rw [if_neg]
    simp only [beq_iff_eq]
    exact hpre x hx)]
  rw [flatten_map_eq_nil _ post (fun x hx => by
    rw [if_neg]
    simp only [beq_iff_eq]
    exact hpost x hx)]
  rw [if_pos (beq_iff_eq.mpr hsid), if_pos (beq_iff_eq.mpr hstatus), hrem]
  rfl

/-- Witness for C8: VM 100 has the errored, grouped registration
`haErrGrouped`; adding to group `newgrp` disables and deletes before
creating. -/
theorem add_to_ha_error_removes_before_create_witness :
    add_to_ha_group_started envHAerrG vmDemo "newgrp" =
      [ApiCall.haResourcesGet, ApiCall.haResourcesGet,
       ApiCall.haResourcePut (haSid vmDemo.vmid) "disabled",
       ApiCall.haResourceDelete (haSid vmDemo.vmid),
       ApiCall.haResourcesCreate (haSid vmDemo.vmid) "newgrp" "started"] :=
  add_to_ha_error_removes_before_create envHAerrG vmDemo "newgrp" [] [] haErrGrouped "g0"
    rfl (by simp) (by simp) (by decide) rfl rfl

/-- Counterexample to C8 as stated: VM 100's registration has status
`error`, yet because it carries no group the removal helper returns early,
so no disable or delete call ever precedes the creation. -/
theorem add_to_ha_error_not_removed :
    (∃ r ∈ envHAerrN.haResources, r.sid = haSid vmDemo.vmid ∧ r.status = "error") ∧
    ApiCall.haResourceDelete (haSid vmDemo.vmid) ∉
      add_to_ha_group_started envHAerrN vmDemo "newgrp" ∧
    add_to_ha_group_started envHAerrN vmDemo "newgrp" =
      [ApiCall.haResourcesGet, ApiCall.haResourcesGet,
       ApiCall.haResourcesCreate (haSid vmDemo.vmid) "newgrp" "started"] := by
  decide

/-- Claim C9 (amended): `remove_from_ha_group` issues no write or delete
call when the group lookup yields nothing — which happens both when no HA
registration exists for the VM and when a registration exists without a
group field; otherwise the disable write strictly precedes the delete. -/
theorem remove_from_ha_disable_before_delete (env : Cluster) (vm : ProxmoxVM) :
    ((get_ha_group env vm).1 = none →
      remove_from_ha_group env vm = [ApiCall.haResourcesGet]) ∧
    (∀ g, (get_ha_group env vm).1 = some g →
      remove_from_ha_group env vm =
        [ApiCall.haResourcesGet, ApiCall.haResourcePut (haSid vm.vmid) "disabled",
         ApiCall.haResourceDelete (haSid vm.vmid)]) := by
  constructor
  · intro h
    simp only [remove_from_ha_group, h, get_ha_group_trace]
  · intro g hg
    simp only [remove_from_ha_group, hg, get_ha_group_trace]
    rfl

/-- Witness for C9: no registration at all gives a pure read; the grouped
registration of VM 100 is disabled before it is deleted. -/
theorem remove_from_ha_disable_before_delete_witness :
    remove_from_ha_group envDemo vmDemo = [ApiCall.haResourcesGet] ∧
    remove_from_ha_group envHAerrG vmDemo =
      [ApiCall.haResourcesGet, ApiCall.haResourcePut (haSid vmDemo.vmid) "disabled",
       ApiCall.haResourceDelete (haSid vmDemo.vmid)] :=
  ⟨(remove_from_ha_disable_before_delete envDemo vmDemo).1 (by decide),
   (remove_from_ha_disable_before_delete envHAerrG vmDemo).2 "g0" (by decide)⟩

/-- Counterexample to C9 as stated: VM 101 does have an HA registration
(`haRegNoGroup`, whose `sid` matches), yet `remove_from_ha_group` is a no-op
that never disables or deletes, because the registration carries no group. -/
theorem remove_from_ha_registered_but_noop :
    (∃ r ∈ envHAnoGroup.haResources, r.sid = haSid vm101.vmid) ∧
    remove_from_ha_group envHAnoGroup vm101 = [ApiCall.haResourcesGet] ∧
    ApiCall.haResourceDelete (haSid vm101.vmid) ∉ remove_from_ha_group envHAnoGroup vm101 := by
  decide

/-- Claim C10: when the remote write raises, `set_pool`, `set_cpu` and
`set_memory` return `False` and leave their cached field (`_pool`,
`_maxcpu`, `_maxmem`) unchanged; the cache is updated only when the remote
call returns without raising. -/
theorem setter_cache_unchanged_on_failure (env : Cluster) (vm : ProxmoxVM)
    (p : String) (cores sockets memory_gb : Int) :
    (env.poolsPutOk = false →
      (set_pool env vm p).2.1 = false ∧ (set_pool env vm p).1.pool = vm.pool) ∧
    (env.configPutOk = false →
      (set_cpu env vm cores sockets).2.1 = false ∧
      (set_cpu env vm cores sockets).1.maxcpu = vm.maxcpu) ∧
    (env.configPutOk = false →
      (set_memory env vm memory_gb).2.1 = false ∧
      (set_memory env vm memory_gb).1.maxmem = vm.maxmem) ∧
    ((set_pool env vm p).2.1 = true → (set_pool env vm p).1.pool = some p) ∧
    ((set_cpu env vm cores sockets).2.1 = true →
      (set_cpu env vm cores sockets).1.maxcpu = some (sockets * cores)) ∧
    ((set_memory env vm memory_gb).2.1 = true →
      (set_memory env vm memory_gb).1.maxmem = some (memory_gb * 1024)) := by
  cases hp : env.poolsPutOk <;> cases hcfg : env.configPutOk <;>
    simp [set_pool, set_cpu, set_memory, hp, hcfg, get_node_maxcpu, get_node_maxmem]

/-- Witness for C10: against the cluster whose writes raise, all three
setters report failure and the cached pool, CPU and memory maxima keep
their old values. -/
theorem setter_cache_unchanged_on_failure_witness :
    ((set_pool envFail vmDemo "p2").2.1 = false ∧
      (set_pool envFail vmDemo "p2").1.pool = vmDemo.pool) ∧
    ((set_cpu envFail vmDemo 2 1).2.1 = false ∧
      (set_cpu envFail vmDemo 2 1).1.maxcpu = vmDemo.maxcpu) ∧
    ((set_memory envFail vmDemo 4).2.1 = false ∧
      (set_memory envFail vmDemo 4).1.maxmem = vmDemo.maxmem) :=
  ⟨(setter_cache_unchanged_on_failure envFail vmDemo "p2" 2 1 4).1 rfl,
   (setter_cache_unchanged_on_failure envFail vmDemo "p2" 2 1 4).2.1 rfl,
   (setter_cache_unchanged_on_failure envFail vmDemo "p2" 2 1 4).2.2.1 rfl⟩
